import Mathlib

/-!
Verification of the Needs Pyramid Tracker widget
(src/pyramid-tracker/src/app/needsPyramidTracker.tsx).

The component keeps three pieces of persistent state: `levelValues` (six
slider ratings), `history` (saved snapshots) and `userName`, mirrored into
browser localStorage under the keys `needsPyramidValues`,
`needsPyramidHistory` and `needsPyramidUserName`.

Modelling choices, each tied to the source:
 - `levelValues` is a `List Nat`; the sliders produce integers in [0,100]
   (max=100, step=1, default min 0).
 - The rating vector is persisted as JSON text (`JSON.stringify` at line 47,
   `JSON.parse` at line 36).  We model the serialized form faithfully as
   `List Char` via `serializeVector` / `deserializeVector`, covering exactly
   the fragment of JSON the component ever writes: nonempty arrays of
   nonnegative integers, e.g. "[50,50,50,50,50,50]".
 - The history is persisted as JSON text too (line 70), but no claim
   inspects that text, so the storage slot for the history holds the parsed
   value directly (`Option (List Snapshot)`).  The user name is stored as a
   raw string (line 51).
 - Each user-visible operation is modelled as the event handler TOGETHER
   with the React effect flush that follows it: the effect with dependency
   `[levelValues]` (line 46) re-runs whenever `setLevelValues` was called,
   because every call passes a fresh array (lines 55-59, 75), and then
   rewrites the `needsPyramidValues` key; the effect with dependency
   `[userName]` (line 50) re-runs exactly when the string value changed
   (React compares string state with Object.is) and then rewrites the
   `needsPyramidUserName` key.  In particular, after a confirmed reset
   (lines 73-82) removes all three keys, the `[levelValues]` effect
   immediately rewrites `needsPyramidValues`, and the `[userName]` effect
   rewrites `needsPyramidUserName` exactly when the name was nonempty
   before the reset.
 - Mounting the component runs the load effect (lines 30-44) and then both
   persist effects, so after a mount settles the `needsPyramidValues` and
   `needsPyramidUserName` keys hold the current (possibly just loaded)
   values.
-/

namespace NeedsPyramid

/-- The six fixed dimension names (source line 12). -/
def LEVELS : List String :=
  ["Survival", "Security", "Happiness", "Achievement", "Experience",
   "Self Actualization"]

/-- Default rating vector, `LEVELS.map(() => 50)` (source line 24). -/
def defaultLevelValues : List Nat := LEVELS.map (fun _ => 50)

/-- One history entry, `{date, values, userName}` (source lines 63-67). -/
structure Snapshot where
  date : String
  values : List Nat
  userName : String
deriving DecidableEq

/-- In-memory component state (source lines 24-28). -/
structure ComponentState where
  levelValues : List Nat
  history : List Snapshot
  userName : String
  showHistory : Bool
  selectedLevel : Option Nat
deriving DecidableEq

/-- The localStorage slots used by the component.  `needsPyramidValues`
holds JSON text (modelled at the character level); `needsPyramidHistory`
holds JSON text whose parsed value we track directly; `needsPyramidUserName`
holds a raw string.  `none` means the key is absent. -/
structure Storage where
  needsPyramidValues : Option (List Char)
  needsPyramidHistory : Option (List Snapshot)
  needsPyramidUserName : Option String
deriving DecidableEq

/-- A component instance together with the browser storage. -/
structure Sys where
  comp : ComponentState
  storage : Storage
deriving DecidableEq

/-- Initial in-memory state on first render (source lines 24-28). -/
def initialComp : ComponentState :=
  { levelValues := defaultLevelValues
    history := []
    userName := ""
    showHistory := false
    selectedLevel := none }

/-- Storage with no keys present. -/
def emptyStorage : Storage :=
  { needsPyramidValues := none
    needsPyramidHistory := none
    needsPyramidUserName := none }

/-! JSON model for the rating vector.  `JSON.stringify` on an array of
nonnegative integers prints `[`, the decimal digits of each entry separated
by commas, then `]`, with no whitespace.  `JSON.parse` at line 36 is
modelled on exactly that fragment. -/

/-- Value of a decimal digit character, `none` on non-digits. -/
def digitVal (c : Char) : Option Nat :=
  if 48 ≤ c.toNat ∧ c.toNat ≤ 57 then some (c.toNat - 48) else none

/-- Parse a nonempty all-digit string as a decimal number. -/
def charsToNat (s : List Char) : Option Nat :=
  match s with
  | [] => none
  | _ => s.foldl (fun acc c => acc.bind fun a => (digitVal c).map fun d => a * 10 + d)
      (some 0)

/-- The serialized form of a rating vector: `JSON.stringify(levelValues)`
(source line 47). -/
def serializeVector (v : List Nat) : List Char :=
  '[' :: ([','].intercalate (v.map (Nat.toDigits 10)) ++ [']'])

/-- Parse each comma-separated piece as a number, failing if any fails. -/
def parseAllNums : List (List Char) → Option (List Nat)
  | [] => some []
  | piece :: rest =>
    match charsToNat piece, parseAllNums rest with
    | some n, some ns => some (n :: ns)
    | _, _ => none

/-- The parse of stored rating-vector text: `JSON.parse(savedLevelValues)`
(source line 36), on the array-of-integers fragment the component writes. -/
def deserializeVector (s : List Char) : Option (List Nat) :=
  match s with
  | '[' :: rest =>
    if rest.getLast? = some ']' then parseAllNums (rest.dropLast.splitOn ',')
    else none
  | _ => none

/-! The JavaScript blank-name test `!userName.trim()` (source line 172). -/

/-- Whitespace characters removed by JavaScript `String.prototype.trim`,
per ECMA-262: TAB, LF, VT, FF, CR, space, NBSP (U+00A0), Ogham space mark
(U+1680), the U+2000-U+200A spaces, the line and paragraph separators
(U+2028, U+2029), narrow no-break space (U+202F), medium mathematical
space (U+205F), ideographic space (U+3000) and BOM (U+FEFF). -/
def isJsWs (c : Char) : Bool :=
  c.toNat = 32 || c.toNat = 9 || c.toNat = 10 || c.toNat = 11 ||
  c.toNat = 12 || c.toNat = 13 || c.toNat = 160 || c.toNat = 5760 ||
  (8192 ≤ c.toNat && c.toNat ≤ 8202) || c.toNat = 8232 ||
  c.toNat = 8233 || c.toNat = 8239 || c.toNat = 8287 ||
  c.toNat = 12288 || c.toNat = 65279

/-- Model of JavaScript `s.trim()` on the character list of `s`. -/
def jsTrim (l : List Char) : List Char :=
  ((l.dropWhile isJsWs).reverse.dropWhile isJsWs).reverse

/-! The event handlers, each paired with its effect flush. -/

/-- Source lines 54-60: copy the previous vector and overwrite entry
`index` with `value[0]`.  The slider always passes a one-element array.
For `index < prev.length` (the only indices the UI produces) the
JavaScript write is exactly `List.set`. -/
def handleSliderChange (index : Nat) (value : List Nat) (prev : List Nat) :
    List Nat :=
  prev.set index (value.headD 0)

/-- The `saveSnapshot` handler (source lines 62-71): build a snapshot from
the clock, the current vector and name; append it; write the updated
history to storage. -/
def saveSnapshot (now : String) (s : Sys) : Sys :=
  let newSnapshot : Snapshot :=
    { date := now, values := s.comp.levelValues, userName := s.comp.userName }
  let updatedHistory := s.comp.history ++ [newSnapshot]
  { comp := { s.comp with history := updatedHistory }
    storage := { s.storage with needsPyramidHistory := some updatedHistory } }

/-- A click on the Save Snapshot button: the button is disabled exactly
when `!userName.trim()` (source line 172), so the click is a no-op then. -/
def saveSnapshotClick (now : String) (s : Sys) : Sys :=
  if jsTrim s.comp.userName.toList = [] then s else saveSnapshot now s

/-- The `resetData` handler (source lines 73-82) plus the effect flush.
When confirmed it sets the three state pieces back to their defaults and
removes all three keys; then the `[levelValues]` effect re-runs (the
handler passed a fresh array) and rewrites `needsPyramidValues`, and the
`[userName]` effect re-runs exactly when the name actually changed,
rewriting `needsPyramidUserName` with the empty string. -/
def resetData (confirmed : Bool) (s : Sys) : Sys :=
  if confirmed then
    { comp := { s.comp with
        levelValues := defaultLevelValues
        history := []
        userName := "" }
      storage :=
        { needsPyramidValues := some (serializeVector defaultLevelValues)
          needsPyramidHistory := none
          needsPyramidUserName :=
            if s.comp.userName = "" then none else some "" } }
  else s

/-- The discrete user events the rendered controls can produce. -/
inductive Action where
  | slider (i v : Nat)
  | setName (n : String)
  | saveClick (now : String)
  | resetConfirm
  | resetDecline
  | toggleHistory
  | selectLevel (i : Nat)
  | closeDialog

/-- Parameter ranges the controls enforce structurally: six sliders with
max=100 and step=1 (indices 0-5), and six clickable pyramid bands. -/
def ActionValid : Action → Prop
  | .slider i v => i < 6 ∧ v ≤ 100
  | .selectLevel i => i < 6
  | _ => True

/-- One user event applied to the component, including the persistence
effects that follow it. -/
def applyAction (s : Sys) : Action → Sys
  | .slider i v =>
    let lv := handleSliderChange i [v] s.comp.levelValues
    { comp := { s.comp with levelValues := lv }
      storage := { s.storage with needsPyramidValues := some (serializeVector lv) } }
  | .setName n =>
    if n = s.comp.userName then s
    else
      { comp := { s.comp with userName := n }
        storage := { s.storage with needsPyramidUserName := some n } }
  | .saveClick now => saveSnapshotClick now s
  | .resetConfirm => resetData true s
  | .resetDecline => resetData false s
  | .toggleHistory => { s with comp := { s.comp with showHistory := !s.comp.showHistory } }
  | .selectLevel i => { s with comp := { s.comp with selectedLevel := some i } }
  | .closeDialog => { s with comp := { s.comp with selectedLevel := none } }

/-- Load step for the rating vector (source lines 31, 35-37): absent key
leaves the default; a present key is parsed, a parse failure aborting. -/
def loadValues (st : Storage) (c : ComponentState) : Option ComponentState :=
  match st.needsPyramidValues with
  | none => some c
  | some chars =>
    (deserializeVector chars).map fun v => { c with levelValues := v }

/-- Load step for the history (source lines 32, 38-40). -/
def loadHistory (st : Storage) (c : ComponentState) : ComponentState :=
  match st.needsPyramidHistory with
  | none => c
  | some h => { c with history := h }

/-- Load step for the user name (source lines 33, 41-43). -/
def loadName (st : Storage) (c : ComponentState) : ComponentState :=
  match st.needsPyramidUserName with
  | none => c
  | some n => { c with userName := n }

/-- The load effect at mount (source lines 30-44): three independent
optional reads applied to the initial state. -/
def loadComp (st : Storage) : Option ComponentState :=
  match loadValues st initialComp with
  | none => none
  | some c => some (loadName st (loadHistory st c))

/-- Mounting the component over a given storage: run the load effect, then
the two persist effects, which write the current vector and name back to
their keys (both run on mount, and re-run after the load effect's setter
calls). -/
def mount (st : Storage) : Option Sys :=
  match loadComp st with
  | none => none
  | some c =>
    some
      { comp := c
        storage := { st with
          needsPyramidValues := some (serializeVector c.levelValues)
          needsPyramidUserName := some c.userName } }

/-- States of the widget reachable through the UI: a first mount over empty
storage, any sequence of control events within their structural parameter
ranges, and remounts (page reloads) over the storage left behind. -/
inductive Reachable : Sys → Prop where
  | init (s : Sys) (h : mount emptyStorage = some s) : Reachable s
  | step (s : Sys) (a : Action) (hs : Reachable s) (ha : ActionValid a) :
      Reachable (applyAction s a)
  | remount (s s' : Sys) (hs : Reachable s) (h : mount s.storage = some s') :
      Reachable s'

/-- The system state right after the first mount over empty storage. -/
def mountedSys : Sys :=
  { comp := initialComp
    storage :=
      { needsPyramidValues := some (serializeVector defaultLevelValues)
        needsPyramidHistory := none
        needsPyramidUserName := some "" } }

/-- A concrete reachable system whose display name is nonblank. -/
def aliceSys : Sys := applyAction mountedSys (Action.setName "Alice")

/-! Helper lemmas about the serialized rating vector. -/

/-- Parsing the decimal digits of a slider value gives the value back. -/
theorem charsToNat_toDigits :
    ∀ n : Nat, n ≤ 100 → charsToNat (Nat.toDigits 10 n) = some n := by decide

/-- The decimal digits of a slider value contain no comma. -/
theorem comma_not_mem_toDigits :
    ∀ n : Nat, n ≤ 100 → ',' ∉ Nat.toDigits 10 n := by decide

/-- Parsing the digit blocks of a vector entry-wise gives the vector back. -/
theorem parseAllNums_map (v : List Nat) (hb : ∀ n ∈ v, n ≤ 100) :
    parseAllNums (v.map (Nat.toDigits 10)) = some v := by
  induction v with
  | nil => rfl
  | cons n rest ih =>
    have h1 := charsToNat_toDigits n (hb n (List.mem_cons_self n rest))
    have h2 := ih (fun m hm => hb m (List.mem_cons_of_mem n hm))
    simp [parseAllNums, h1, h2]

/-- Round trip of the rating-vector JSON text, for any nonempty vector of
values in the slider range. -/
theorem serialize_roundTrip (v : List Nat) (hne : v ≠ [])
    (hb : ∀ n ∈ v, n ≤ 100) :
    deserializeVector (serializeVector v) = some v := by
  have h0 : deserializeVector (serializeVector v) =
      if (([','].intercalate (v.map (Nat.toDigits 10)) ++ [']']) :
            List Char).getLast? = some ']' then
        parseAllNums ((([','].intercalate (v.map (Nat.toDigits 10)) ++
          [']']) : List Char).dropLast.splitOn ',')
      else none := rfl
  rw [h0, List.getLast?_concat, if_pos rfl, List.dropLast_concat]
  rw [List.splitOn_intercalate (v.map (Nat.toDigits 10)) ','
    (fun l hl => by
      obtain ⟨n, hn, h⟩ := List.mem_map.mp hl
      exact h ▸ comma_not_mem_toDigits n (hb n hn))
    (fun h => hne (List.map_eq_nil_iff.mp h))]
  exact parseAllNums_map v hb

/-- A display name made of whitespace only trims to the empty string. -/
theorem jsTrim_of_all_ws (l : List Char) (h : ∀ c ∈ l, isJsWs c = true) :
    jsTrim l = [] := by
  unfold jsTrim
  rw [List.dropWhile_eq_nil_iff.mpr h]
  rfl

/-! Helper lemmas about the load effect and the reachable-state invariant. -/

/-- A well-formed rating vector: six entries, each in the slider range. -/
def validVec (v : List Nat) : Prop := v.length = 6 ∧ ∀ x ∈ v, x ≤ 100

/-- Invariant carried by every reachable system: the in-memory vector is
well formed, and the `needsPyramidValues` key holds the serialization of a
well-formed vector. -/
def SysInv (s : Sys) : Prop :=
  validVec s.comp.levelValues ∧
  ∃ v, validVec v ∧
    s.storage.needsPyramidValues = some (serializeVector v)

theorem validVec_default : validVec defaultLevelValues := by
  constructor <;> decide

theorem loadValues_none (st : Storage) (c : ComponentState)
    (hv : st.needsPyramidValues = none) : loadValues st c = some c := by
  unfold loadValues
  rw [hv]

theorem loadValues_fields (st : Storage) (c c0 : ComponentState)
    (h : loadValues st c = some c0) :
    c0.history = c.history ∧ c0.userName = c.userName := by
  cases hv : st.needsPyramidValues with
  | none =>
    simp only [loadValues, hv] at h
    injection h with h
    subst h
    exact ⟨rfl, rfl⟩
  | some chars =>
    simp only [loadValues, hv] at h
    cases hd : deserializeVector chars with
    | none => rw [hd] at h; cases h
    | some v =>
      rw [hd] at h
      simp only [Option.map_some'] at h
      injection h with h
      subst h
      exact ⟨rfl, rfl⟩

theorem loadHistory_fields (st : Storage) (c : ComponentState) :
    (loadHistory st c).levelValues = c.levelValues ∧
    (loadHistory st c).userName = c.userName := by
  unfold loadHistory
  cases st.needsPyramidHistory <;> exact ⟨rfl, rfl⟩

theorem loadHistory_none (st : Storage) (c : ComponentState)
    (hh : st.needsPyramidHistory = none) : loadHistory st c = c := by
  unfold loadHistory
  rw [hh]

theorem loadName_fields (st : Storage) (c : ComponentState) :
    (loadName st c).levelValues = c.levelValues ∧
    (loadName st c).history = c.history := by
  unfold loadName
  cases st.needsPyramidUserName <;> exact ⟨rfl, rfl⟩

theorem loadName_none (st : Storage) (c : ComponentState)
    (hn : st.needsPyramidUserName = none) : loadName st c = c := by
  unfold loadName
  rw [hn]

/-- When every stored vector text is the serialization of a well-formed
vector, the load effect produces a well-formed in-memory vector. -/
theorem loadComp_validVec (st : Storage) (c : ComponentState)
    (hst : ∀ chars, st.needsPyramidValues = some chars →
      ∃ v, validVec v ∧ chars = serializeVector v)
    (h : loadComp st = some c) : validVec c.levelValues := by
  unfold loadComp at h
  cases hlv : loadValues st initialComp with
  | none => rw [hlv] at h; cases h
  | some c0 =>
    rw [hlv] at h
    injection h with h
    subst h
    rw [(loadName_fields _ _).1, (loadHistory_fields _ _).1]
    cases hv : st.needsPyramidValues with
    | none =>
      simp only [loadValues, hv] at hlv
      injection hlv with hlv
      subst hlv
      exact validVec_default
    | some chars =>
      simp only [loadValues, hv] at hlv
      obtain ⟨v, hvv, hchars⟩ := hst chars hv
      subst hchars
      have hne : v ≠ [] := by
        intro h
        subst h
        exact absurd hvv.1 (by decide)
      rw [serialize_roundTrip v hne hvv.2] at hlv
      simp only [Option.map_some'] at hlv
      injection hlv with hlv
      subst hlv
      exact hvv

/-- Mounting over storage whose stored vector is well formed yields a
system satisfying the invariant. -/
theorem mount_inv (st : Storage) (s : Sys)
    (hst : ∀ chars, st.needsPyramidValues = some chars →
      ∃ v, validVec v ∧ chars = serializeVector v)
    (h : mount st = some s) : SysInv s := by
  unfold mount at h
  cases hc : loadComp st with
  | none => rw [hc] at h; cases h
  | some c =>
    rw [hc] at h
    injection h with h
    subst h
    have hv := loadComp_validVec st c hst hc
    exact ⟨hv, c.levelValues, hv, rfl⟩

/-- Every reachable system satisfies the invariant. -/
theorem reachable_inv (s : Sys) (h : Reachable s) : SysInv s := by
  induction h with
  | init s h =>
    exact mount_inv emptyStorage s
      (fun chars hc => by cases hc) h
  | remount s s' hs h ih =>
    refine mount_inv s.storage s' (fun chars hc => ?_) h
    obtain ⟨-, v, hvv, hkey⟩ := ih
    rw [hkey] at hc
    injection hc with hc
    exact ⟨v, hvv, hc.symm⟩
  | step s a hs ha ih =>
    cases a with
    | slider i v =>
      obtain ⟨hi, hv100⟩ := ha
      obtain ⟨⟨hlen, hmem⟩, -⟩ := ih
      have hvalid : validVec (handleSliderChange i [v] s.comp.levelValues) := by
        constructor
        · simp [handleSliderChange, hlen]
        · intro x hx
          simp only [handleSliderChange, List.headD] at hx
          rcases List.mem_or_eq_of_mem_set hx with hx | hx
          · exact hmem x hx
          · exact hx ▸ hv100
      exact ⟨hvalid, _, hvalid, rfl⟩
    | setName n =>
      show SysInv (if n = s.comp.userName then s else _)
      split
      · exact ih
      · exact ⟨ih.1, ih.2⟩
    | saveClick now =>
      show SysInv (saveSnapshotClick now s)
      unfold saveSnapshotClick
      split
      · exact ih
      · exact ⟨ih.1, ih.2⟩
    | resetConfirm =>
      exact ⟨validVec_default, defaultLevelValues, validVec_default, rfl⟩
    | resetDecline => exact ih
    | toggleHistory => exact ⟨ih.1, ih.2⟩
    | selectLevel i => exact ⟨ih.1, ih.2⟩
    | closeDialog => exact ⟨ih.1, ih.2⟩

/-- Slider events never touch the history. -/
theorem foldl_slider_history (ops : List (Nat × Nat)) :
    ∀ st : Sys,
      ((ops.foldl (fun st2 p => applyAction st2 (Action.slider p.1 p.2))
        st).comp.history) = st.comp.history := by
  induction ops with
  | nil => intro st; rfl
  | cons p rest ih =>
    intro st
    rw [List.foldl_cons, ih]
    rfl

/-! Theorems for the spec claims. -/

/-- C1: for every index i in [0,5] and value v in [0,100], the slider
handler on a rating vector of length 6 yields a vector whose entry at i is
v and whose entries at every other position are unchanged. -/
theorem setRating_updates_only_index (prev : List Nat) (i v : Nat)
    (hlen : prev.length = 6) (hi : i < 6) (hv : v ≤ 100) :
    (handleSliderChange i [v] prev).length = 6 ∧
    (handleSliderChange i [v] prev)[i]? = some v ∧
    ∀ j, j ≠ i → (handleSliderChange i [v] prev)[j]? = prev[j]? := by
  refine ⟨?_, ?_, ?_⟩
  · simp [handleSliderChange, hlen]
  · have hlt : i < prev.length := by omega
    simp [handleSliderChange, List.getElem?_set, hlt]
  · intro j hj
    simp [handleSliderChange, List.getElem?_set, hj.symm]

/-- Witness for C1 at prev = six 50s, i = 2, v = 77. -/
theorem setRating_updates_only_index_witness :
    (handleSliderChange 2 [77] [50, 50, 50, 50, 50, 50])[2]? = some 77 :=
  (setRating_updates_only_index [50, 50, 50, 50, 50, 50] 2 77 rfl
    (by decide) (by decide)).2.1

/-- C2: with a non-blank display name, a save click appends exactly one
snapshot holding a copy of the current vector and the display name, and
any sequence of later slider events leaves the stored history, hence the
snapshot, unchanged. -/
theorem saveSnapshot_appends_copy (s : Sys) (now : String)
    (h : jsTrim s.comp.userName.toList ≠ []) :
    (saveSnapshotClick now s).comp.history =
      s.comp.history ++
        [{ date := now, values := s.comp.levelValues,
           userName := s.comp.userName }] ∧
    ∀ ops : List (Nat × Nat),
      ((ops.foldl (fun st p => applyAction st (Action.slider p.1 p.2))
          (saveSnapshotClick now s)).comp.history) =
        s.comp.history ++
          [{ date := now, values := s.comp.levelValues,
             userName := s.comp.userName }] := by
  have h1 : (saveSnapshotClick now s).comp.history =
      s.comp.history ++
        [{ date := now, values := s.comp.levelValues,
           userName := s.comp.userName }] := by
    unfold saveSnapshotClick
    rw [if_neg h]
    rfl
  exact ⟨h1, fun ops => (foldl_slider_history ops _).trans h1⟩

/-- Witness for C2 at the mounted system with name "Alice". -/
theorem saveSnapshot_appends_copy_witness :
    (saveSnapshotClick "2024-01-01T00:00:00.000Z" aliceSys).comp.history =
      aliceSys.comp.history ++
        [{ date := "2024-01-01T00:00:00.000Z",
           values := aliceSys.comp.levelValues,
           userName := aliceSys.comp.userName }] :=
  (saveSnapshot_appends_copy aliceSys "2024-01-01T00:00:00.000Z"
    (by decide)).1

/-- C3: when the display name is empty or whitespace-only, the save
control is disabled and a save click changes nothing at all, in memory or
in storage. -/
theorem save_noop_on_blank_name (s : Sys) (now : String)
    (h : s.comp.userName = "" ∨
      ∀ c ∈ s.comp.userName.toList, isJsWs c = true) :
    saveSnapshotClick now s = s := by
  have hb : jsTrim s.comp.userName.toList = [] := by
    rcases h with h | h
    · rw [h]
      rfl
    · exact jsTrim_of_all_ws _ h
  unfold saveSnapshotClick
  rw [if_pos hb]

/-- Witness for C3 at the mounted system, whose name is empty. -/
theorem save_noop_on_blank_name_witness :
    saveSnapshotClick "2024-01-01T00:00:00.000Z" mountedSys = mountedSys :=
  save_noop_on_blank_name mountedSys "2024-01-01T00:00:00.000Z" (Or.inl rfl)

/-- C4: serializing a rating vector of six values in [0,100] to its
storage text and parsing it back reproduces the identical vector. -/
theorem vector_storage_round_trip (v : List Nat) (h6 : v.length = 6)
    (hb : ∀ n ∈ v, n ≤ 100) :
    deserializeVector (serializeVector v) = some v :=
  serialize_roundTrip v
    (by rintro rfl; simp at h6) hb

/-- Witness for C4 at the vector [10,20,30,40,50,60]. -/
theorem vector_storage_round_trip_witness :
    deserializeVector (serializeVector [10, 20, 30, 40, 50, 60]) =
      some [10, 20, 30, 40, 50, 60] :=
  vector_storage_round_trip [10, 20, 30, 40, 50, 60] rfl (by decide)

/-- C5 counterexample: right after a confirmed reset the persist effect
for the rating vector has already rewritten the `needsPyramidValues` key,
so the reachable post-reset state does not have all three keys absent. -/
theorem reset_leaves_vector_key_present :
    Reachable (applyAction mountedSys Action.resetConfirm) ∧
    (applyAction mountedSys Action.resetConfirm).storage.needsPyramidValues =
      some (serializeVector defaultLevelValues) :=
  ⟨Reachable.step mountedSys Action.resetConfirm
    (Reachable.init mountedSys rfl) trivial, rfl⟩

/-- C5 amended: a confirmed reset sets the vector to all 50s, empties the
history and the name, and removes the history key; but the persist effects
immediately rewrite the rating-vector key with the serialized default
vector, and rewrite the display-name key with the empty string exactly
when the name was nonempty before the reset. -/
theorem reset_confirmed_state (s : Sys) :
    (applyAction s Action.resetConfirm).comp.levelValues =
      [50, 50, 50, 50, 50, 50] ∧
    (applyAction s Action.resetConfirm).comp.history = [] ∧
    (applyAction s Action.resetConfirm).comp.userName = "" ∧
    (applyAction s Action.resetConfirm).storage.needsPyramidHistory = none ∧
    (applyAction s Action.resetConfirm).storage.needsPyramidValues =
      some (serializeVector defaultLevelValues) ∧
    (applyAction s Action.resetConfirm).storage.needsPyramidUserName =
      (if s.comp.userName = "" then none else some "") :=
  ⟨rfl, rfl, rfl, rfl, rfl, rfl⟩

/-- C6: declining the reset confirmation changes nothing: the vector, the
history, the name and all three storage slots are untouched. -/
theorem reset_declined_noop (s : Sys) :
    applyAction s Action.resetDecline = s := rfl

/-- C7: the load effect reads the three storage keys independently, and
each absent key leaves the corresponding in-memory default (all-50 vector,
empty history, empty name). -/
theorem load_absent_keys_keep_defaults (st : Storage) (c : ComponentState)
    (h : loadComp st = some c) :
    (st.needsPyramidValues = none → c.levelValues = defaultLevelValues) ∧
    (st.needsPyramidHistory = none → c.history = []) ∧
    (st.needsPyramidUserName = none → c.userName = "") := by
  unfold loadComp at h
  cases hlv : loadValues st initialComp with
  | none => rw [hlv] at h; cases h
  | some c0 =>
    rw [hlv] at h
    injection h with h
    subst h
    refine ⟨?_, ?_, ?_⟩
    · intro hv
      rw [loadValues_none st initialComp hv] at hlv
      injection hlv with hlv
      subst hlv
      rw [(loadName_fields _ _).1, (loadHistory_fields _ _).1]
      rfl
    · intro hh
      rw [(loadName_fields _ _).2, loadHistory_none st c0 hh,
        (loadValues_fields st initialComp c0 hlv).1]
      rfl
    · intro hn
      rw [loadName_none st _ hn, (loadHistory_fields _ _).2,
        (loadValues_fields st initialComp c0 hlv).2]
      rfl

/-- Witness for C7 at empty storage, where all three keys are absent. -/
theorem load_absent_keys_keep_defaults_witness :
    initialComp.levelValues = defaultLevelValues ∧
    initialComp.history = [] ∧ initialComp.userName = "" := by
  have t := load_absent_keys_keep_defaults emptyStorage initialComp rfl
  exact ⟨t.1 rfl, t.2.1 rfl, t.2.2 rfl⟩

/-- C8: in every reachable state the rating vector has exactly six
entries, each in [0,100]; the property survives mounts (loads from storage
the component itself wrote), slider events, saves and resets. -/
theorem rating_vector_invariant (s : Sys) (h : Reachable s) :
    s.comp.levelValues.length = 6 ∧ ∀ x ∈ s.comp.levelValues, x ≤ 100 :=
  (reachable_inv s h).1

/-- Witness for C8 at the mounted system. -/
theorem rating_vector_invariant_witness :
    mountedSys.comp.levelValues.length = 6 :=
  (rating_vector_invariant mountedSys (Reachable.init mountedSys rfl)).1

/-- C9: every control event leaves the history unchanged, appends exactly
one snapshot at the end, or empties it entirely; none removes, reorders or
rewrites an individual snapshot. -/
theorem history_append_only (s : Sys) (a : Action) :
    (applyAction s a).comp.history = s.comp.history ∨
    (∃ snap, (applyAction s a).comp.history = s.comp.history ++ [snap]) ∨
    (applyAction s a).comp.history = [] := by
  cases a with
  | slider i v => exact Or.inl rfl
  | setName n =>
    show (if n = s.comp.userName then s else _).comp.history = _ ∨ _ ∨ _
    split
    · exact Or.inl rfl
    · exact Or.inl rfl
  | saveClick now =>
    by_cases hb : jsTrim s.comp.userName.toList = []
    · refine Or.inl ?_
      show (saveSnapshotClick now s).comp.history = _
      unfold saveSnapshotClick
      rw [if_pos hb]
    · refine Or.inr
        (Or.inl ⟨Snapshot.mk now s.comp.levelValues s.comp.userName, ?_⟩)
      show (saveSnapshotClick now s).comp.history = _
      unfold saveSnapshotClick
      rw [if_neg hb]
      rfl
  | resetConfirm => exact Or.inr (Or.inr rfl)
  | resetDecline => exact Or.inl rfl
  | toggleHistory => exact Or.inl rfl
  | selectLevel i => exact Or.inl rfl
  | closeDialog => exact Or.inl rfl

/-- C10 counterexample: a confirmed reset performed while the display name
is already empty removes the `needsPyramidUserName` key and the name
persist effect does not re-run (the string state did not change), so the
key stays absent in a reachable post-mount state. -/
theorem reset_removes_name_key_when_blank :
    Reachable (applyAction mountedSys Action.resetConfirm) ∧
    (applyAction mountedSys
      Action.resetConfirm).storage.needsPyramidUserName = none :=
  ⟨Reachable.step mountedSys Action.resetConfirm
    (Reachable.init mountedSys rfl) trivial, rfl⟩

/-- C10 amended: after initialization the rating-vector key is always
present (the persist effect writes it on mount and rewrites it after every
change, including after a reset removes it); the display-name key, by
contrast, can be absent after a confirmed reset with an empty name. -/
theorem vector_key_always_present (s : Sys) (h : Reachable s) :
    s.storage.needsPyramidValues ≠ none := by
  obtain ⟨-, v, -, hv⟩ := reachable_inv s h
  rw [hv]
  exact fun h => Option.noConfusion h

/-- Witness for the amended C10 at the mounted system. -/
theorem vector_key_always_present_witness :
    mountedSys.storage.needsPyramidValues ≠ none :=
  vector_key_always_present mountedSys (Reachable.init mountedSys rfl)

end NeedsPyramid
